import Mathlib

/-!
Verification of `ml/rl/gym/preprocessors/trainer_preprocessors/trainer_preprocessor.py`.

The three adapter factories (`discrete_dqn_trainer_preprocessor`,
`parametric_dqn_trainer_preprocessor`, `sac_trainer_preprocessor`) each return a
function turning a ten-element tuple of raw replay-buffer arrays into a
structured training batch.  We embed the numeric arrays shallowly: a tensor is
its (nested) list of rational values together with a dtype tag; the torch
operations the adapters use (`squeeze`, `unsqueeze`, `float`, `.to(uint8)`,
`.to(bool)`, `repeat`, `repeat_interleave`, `eye`, `ones_like`, `exp`, scalar
subtraction) become list functions.  Rationals model the real-valued contents
exactly; the one place where machine-integer overflow matters — the parametric
adapter builds `not_terminal` in uint8 — is modelled with explicit mod-256
arithmetic.  Torch's elementwise `exp` is an external library primitive, so the
discrete adapter is parameterised by the scalar exponential function it applies.
-/

deriving instance DecidableEq for Except

namespace TrainerPrep

/-- Torch dtypes that occur in the adapters. -/
inductive DType where
  | float32
  | int64
  | uint8
  | boolType
  deriving DecidableEq

/-- A rank-1 tensor: dtype tag plus value list. -/
structure Tensor1 where
  dtype : DType
  data : List ℚ
  deriving DecidableEq

/-- A rank-2 tensor: dtype tag plus row-major list of rows. -/
structure Tensor2 where
  dtype : DType
  data : List (List ℚ)
  deriving DecidableEq

/-- A rank-3 tensor (the sampler's observations have shape [batch, feature, 1]). -/
structure Tensor3 where
  dtype : DType
  data : List (List (List ℚ))
  deriving DecidableEq

/-- Truncation toward zero, as torch integer casts perform on real values. -/
def truncQ (q : ℚ) : ℤ :=
  q.num.tdiv q.den

/-- Value stored by a cast to `torch.uint8`: truncate, then wrap modulo 256. -/
def u8val (q : ℚ) : ℚ :=
  ((truncQ q % 256 : ℤ) : ℚ)

/-- `t.squeeze(2)`: drop the trailing singleton axis of a [batch, feature, 1]
tensor.  Faithful when every innermost list has length one (torch leaves other
shapes unchanged; the well-formedness hypotheses of the theorems require it). -/
def Tensor3.squeeze2 (t : Tensor3) : Tensor2 :=
  ⟨t.dtype, t.data.map (fun row => row.map (fun cell => cell.headD 0))⟩

/-- `t.unsqueeze(1)`: view a length-B vector as a [B, 1] column. -/
def Tensor1.unsqueeze1 (t : Tensor1) : Tensor2 :=
  ⟨t.dtype, t.data.map (fun v => [v])⟩

/-- `t.float()` / `t.to(torch.float32)` on a rank-2 tensor.  The adapters only
cast small integral values, which float32 represents exactly. -/
def Tensor2.toFloat (t : Tensor2) : Tensor2 :=
  ⟨DType.float32, t.data⟩

/-- `t.to(torch.uint8)` on a rank-2 tensor: wrap every entry modulo 256. -/
def Tensor2.toU8 (t : Tensor2) : Tensor2 :=
  ⟨DType.uint8, t.data.map (fun row => row.map u8val)⟩

/-- `t.to(torch.bool)` on a rank-2 tensor: nonzero becomes 1, zero stays 0. -/
def Tensor2.toBool (t : Tensor2) : Tensor2 :=
  ⟨DType.boolType, t.data.map (fun row => row.map (fun v => if v = 0 then (0 : ℚ) else 1))⟩

/-- `c - t` for a python scalar `c` and tensor `t`: elementwise subtraction,
wrapping modulo 256 when the tensor is uint8 (torch keeps uint8 dtype there). -/
def scalarSub (c : ℚ) (t : Tensor2) : Tensor2 :=
  if t.dtype = DType.uint8 then
    ⟨DType.uint8, t.data.map (fun row => row.map (fun v => u8val (c - v)))⟩
  else
    ⟨t.dtype, t.data.map (fun row => row.map (fun v => c - v))⟩

theorem scalarSub_float32 (c : ℚ) (d : List (List ℚ)) :
    scalarSub c ⟨DType.float32, d⟩ =
      ⟨DType.float32, d.map (fun row => row.map (fun v => c - v))⟩ := rfl

theorem scalarSub_uint8 (c : ℚ) (d : List (List ℚ)) :
    scalarSub c ⟨DType.uint8, d⟩ =
      ⟨DType.uint8, d.map (fun row => row.map (fun v => u8val (c - v)))⟩ := rfl

/-- `t.size(1)`: the second dimension of a rank-2 tensor (width of its rows).
Faithful when the tensor is rectangular and nonempty. -/
def Tensor2.size1 (t : Tensor2) : ℕ :=
  (t.data.headD []).length

/-- Rectangularity of a rank-2 tensor (torch.tensor rejects ragged input). -/
def Tensor2.rectangular (t : Tensor2) : Prop :=
  ∀ row ∈ t.data, row.length = t.size1

/-- `t.repeat(1, n)`: tile each row `n` times along the column axis. -/
def Tensor2.repeatCols (t : Tensor2) (n : ℕ) : Tensor2 :=
  ⟨t.dtype, t.data.map (fun row => (List.replicate n row).flatten)⟩

/-- `t.repeat(b, 1)`: stack `b` copies of the tensor along the row axis. -/
def Tensor2.repeatRows (t : Tensor2) (b : ℕ) : Tensor2 :=
  ⟨t.dtype, (List.replicate b t.data).flatten⟩

/-- `torch.repeat_interleave(t, repeats = n, axis = 0)`: repeat each row `n`
consecutive times. -/
def Tensor2.repeatInterleaveRows (t : Tensor2) (n : ℕ) : Tensor2 :=
  ⟨t.dtype, t.data.flatMap (fun row => List.replicate n row)⟩

/-- `torch.ones_like(t)`: tensor of ones with the shape and dtype of `t`. -/
def Tensor2.onesLike (t : Tensor2) : Tensor2 :=
  ⟨t.dtype, t.data.map (fun row => row.map (fun _ => (1 : ℚ)))⟩

/-- `torch.eye(n)`: the n-by-n float identity matrix. -/
def eye (n : ℕ) : Tensor2 :=
  ⟨DType.float32, (List.range n).map (fun i => (List.range n).map (fun j => if i = j then (1 : ℚ) else 0))⟩

/-- `t.exp()`: apply the library's elementwise exponential `rexp`; result is
floating point. -/
def Tensor1.expMap (rexp : ℚ → ℚ) (t : Tensor1) : Tensor1 :=
  ⟨DType.float32, t.data.map rexp⟩

/-- The ten-element tuple sampled from the replay buffer, in tuple order:
observation, action, reward, next-observation, next-action, next-reward,
terminal flag, sample index, possible-actions mask, log-probability. -/
structure RawBatch where
  obs : Tensor3
  action : Tensor2
  reward : Tensor1
  next_obs : Tensor3
  next_action : Tensor2
  next_reward : Tensor1
  terminal : Tensor1
  idxs : Tensor1
  possible_actions_mask : Tensor2
  log_prob : Tensor1
  deriving DecidableEq

/-- Modelled from the spec: the training-batch schema (`rlt.*`) lives outside
this fragment; `PreprocessedFeatureVector` wraps a float-feature matrix. -/
structure PreprocessedFeatureVector where
  float_features : Tensor2
  deriving DecidableEq

/-- Modelled from the spec: fields of `rlt.PreprocessedDiscreteDqnInput`
populated by the discrete adapter (`step` and `time_diff` are passed None). -/
structure PreprocessedDiscreteDqnInput where
  state : PreprocessedFeatureVector
  action : Tensor2
  next_state : PreprocessedFeatureVector
  next_action : Tensor2
  possible_actions_mask : Tensor2
  possible_next_actions_mask : Tensor2
  reward : Tensor2
  not_terminal : Tensor2
  step : Option Unit
  time_diff : Option Unit
  deriving DecidableEq

/-- Modelled from the spec: fields of `rlt.PreprocessedParametricDqnInput`
populated by the parametric adapter. -/
structure PreprocessedParametricDqnInput where
  state : PreprocessedFeatureVector
  action : PreprocessedFeatureVector
  next_state : PreprocessedFeatureVector
  next_action : PreprocessedFeatureVector
  possible_actions : Option PreprocessedFeatureVector
  possible_actions_mask : Tensor2
  possible_next_actions : Option PreprocessedFeatureVector
  possible_next_actions_mask : Tensor2
  tiled_next_state : PreprocessedFeatureVector
  reward : Tensor2
  not_terminal : Tensor2
  step : Option Unit
  time_diff : Option Unit
  deriving DecidableEq

/-- Modelled from the spec: fields of `rlt.PreprocessedPolicyNetworkInput`
populated by the SAC adapter. -/
structure PreprocessedPolicyNetworkInput where
  state : PreprocessedFeatureVector
  action : PreprocessedFeatureVector
  next_state : PreprocessedFeatureVector
  next_action : PreprocessedFeatureVector
  reward : Tensor2
  not_terminal : Tensor2
  step : Option Unit
  time_diff : Option Unit
  deriving DecidableEq

/-- Modelled from the spec: the auxiliary `rlt.ExtraData` record; only
`action_probability` is ever populated by these adapters. -/
structure ExtraData where
  mdp_id : Option Unit := none
  sequence_number : Option Unit := none
  action_probability : Option Tensor1 := none
  max_num_actions : Option ℕ := none
  metrics : Option Unit := none
  deriving DecidableEq

/-- Modelled from the spec: `rlt.PreprocessedTrainingBatch`, a training-input
record of one of the three variants plus extras. -/
structure PreprocessedTrainingBatch (α : Type) where
  training_input : α
  extras : ExtraData
  deriving DecidableEq

/-- The discrete-DQN adapter (source lines 16-59).  `rexp` is the tensor
library's scalar exponential, applied elementwise by `log_prob.exp()`; the
`state_normalization` and `device` factory arguments are unused by the source
body and elided.  The assertion on the action width becomes the error case. -/
def discrete_dqn_trainer_preprocessor (rexp : ℚ → ℚ) (num_actions : ℕ)
    (train_batch : RawBatch) :
    Except String (PreprocessedTrainingBatch PreprocessedDiscreteDqnInput) :=
  let obs := train_batch.obs.squeeze2
  let action := train_batch.action
  let reward := train_batch.reward.unsqueeze1
  let next_obs := train_batch.next_obs.squeeze2
  let next_action := train_batch.next_action
  let not_terminal := scalarSub 1 (train_batch.terminal.unsqueeze1.toFloat)
  let possible_actions_mask := train_batch.possible_actions_mask
  let next_possible_actions_mask := not_terminal.repeatCols num_actions
  let log_prob := train_batch.log_prob
  if action.size1 = num_actions then
    Except.ok
      { training_input :=
          { state := ⟨obs⟩
            action := action
            next_state := ⟨next_obs⟩
            next_action := next_action
            possible_actions_mask := possible_actions_mask
            possible_next_actions_mask := next_possible_actions_mask
            reward := reward
            not_terminal := not_terminal
            step := none
            time_diff := none }
        extras :=
          { mdp_id := none
            sequence_number := none
            action_probability := some (log_prob.expMap rexp)
            max_num_actions := none
            metrics := none } }
  else
    Except.error
      ("action size(1) is " ++ toString action.size1 ++
        " while num_actions is " ++ toString num_actions)

/-- The parametric-DQN adapter (source lines 62-107).  `batch_size` is the
leading dimension of the raw observation array; `state_normalization` is
unused by the source body and elided. -/
def parametric_dqn_trainer_preprocessor (num_actions : ℕ)
    (train_batch : RawBatch) :
    PreprocessedTrainingBatch PreprocessedParametricDqnInput :=
  let batch_size := train_batch.obs.data.length
  let obs := train_batch.obs.squeeze2
  let action := train_batch.action.toFloat
  let next_obs := train_batch.next_obs.squeeze2
  let next_action := train_batch.next_action.toFloat
  let reward := train_batch.reward.unsqueeze1
  let not_terminal := scalarSub 1 (train_batch.terminal.unsqueeze1.toU8)
  let possible_actions_mask := action.onesLike.toBool
  let tiled_next_state := next_obs.repeatInterleaveRows num_actions
  let possible_next_actions := (eye num_actions).repeatRows batch_size
  let possible_next_actions_mask := (not_terminal.repeatCols num_actions).toBool
  { training_input :=
      { state := ⟨obs⟩
        action := ⟨action⟩
        next_state := ⟨next_obs⟩
        next_action := ⟨next_action⟩
        possible_actions := none
        possible_actions_mask := possible_actions_mask
        possible_next_actions := some ⟨possible_next_actions⟩
        possible_next_actions_mask := possible_next_actions_mask
        tiled_next_state := ⟨tiled_next_state⟩
        reward := reward
        not_terminal := not_terminal
        step := none
        time_diff := none }
    extras := {} }

/-- The SAC adapter (source lines 110-138).  The sample indices, the
possible-actions mask and the log-probabilities are converted to tensors by the
source but never placed in the output; `next_action` gets no dtype cast. -/
def sac_trainer_preprocessor (train_batch : RawBatch) :
    PreprocessedTrainingBatch PreprocessedPolicyNetworkInput :=
  let obs := train_batch.obs.squeeze2
  let action := train_batch.action.toFloat
  let reward := train_batch.reward.unsqueeze1
  let next_obs := train_batch.next_obs.squeeze2
  let next_action := train_batch.next_action
  let not_terinal := scalarSub 1 (train_batch.terminal.unsqueeze1.toFloat)
  let _idxs := train_batch.idxs
  let _possible_actions_mask := train_batch.possible_actions_mask.toFloat
  let _log_prob := train_batch.log_prob
  { training_input :=
      { state := ⟨obs⟩
        action := ⟨action⟩
        next_state := ⟨next_obs⟩
        next_action := ⟨next_action⟩
        reward := reward
        not_terminal := not_terinal
        step := none
        time_diff := none }
    extras := {} }

/-! ### Helper lemmas about the tensor operations -/

theorem flatten_replicate_singleton (n : ℕ) (v : ℚ) :
    (List.replicate n [v]).flatten = List.replicate n v := by
  induction n with
  | zero => rfl
  | succ m ih => simp [List.replicate_succ, ih]

theorem length_flatMap_replicate {α : Type} (L : List α) (n : ℕ) :
    (L.flatMap (fun row => List.replicate n row)).length = L.length * n := by
  induction L with
  | nil => simp
  | cons r L ih => simp [ih, Nat.succ_mul, Nat.add_comm]

theorem getElem?_flatMap_replicate {α : Type} (L : List α) (n i k : ℕ) (hk : k < n) :
    (L.flatMap (fun row => List.replicate n row))[i * n + k]? = L[i]? := by
  induction L generalizing i with
  | nil => simp
  | cons r L ih =>
    cases i with
    | zero =>
      rw [List.flatMap_cons, List.getElem?_append_left (by simpa using hk)]
      simp [List.getElem?_replicate, hk]
    | succ j =>
      rw [List.flatMap_cons,
        List.getElem?_append_right (by simp [Nat.succ_mul]; omega)]
      have harith : (j + 1) * n + k - (List.replicate n r).length = j * n + k := by
        simp [Nat.succ_mul]; omega
      rw [harith, ih j]
      simp

theorem length_flatten_replicate {α : Type} (b : ℕ) (L : List α) :
    ((List.replicate b L).flatten).length = b * L.length := by
  induction b with
  | zero => simp
  | succ m ih => simp [List.replicate_succ, ih, Nat.succ_mul, Nat.add_comm]

theorem getElem?_flatten_replicate {α : Type} (b : ℕ) (L : List α) (i k : ℕ)
    (hi : i < b) (hk : k < L.length) :
    ((List.replicate b L).flatten)[i * L.length + k]? = L[k]? := by
  induction b generalizing i with
  | zero => omega
  | succ m ih =>
    rw [List.replicate_succ, List.flatten_cons]
    cases i with
    | zero =>
      rw [List.getElem?_append_left (by simpa using hk)]
      simp
    | succ j =>
      rw [List.getElem?_append_right (by simp [Nat.succ_mul]; omega)]
      have harith : (j + 1) * L.length + k - L.length = j * L.length + k := by
        simp [Nat.succ_mul]; omega
      rw [harith, ih j (by omega)]

theorem eye_data_length (n : ℕ) : (eye n).data.length = n := by
  simp [eye]

theorem eye_row (n s : ℕ) (hs : s < n) :
    (eye n).data[s]? =
      some ((List.range n).map (fun j => if s = j then (1 : ℚ) else 0)) := by
  simp [eye, List.getElem?_map, List.getElem?_range, hs]

theorem truncQ_intCast (k : ℤ) : truncQ ((k : ℤ) : ℚ) = k := by
  simp [truncQ, Rat.num_intCast, Rat.den_intCast]

theorem u8val_intCast (k : ℤ) : u8val ((k : ℤ) : ℚ) = (((k % 256 : ℤ)) : ℚ) := by
  simp [u8val, truncQ_intCast]

theorem u8val_one_sub_u8val_intCast (k : ℤ) :
    u8val (1 - u8val ((k : ℤ) : ℚ)) = (((1 - k) % 256 : ℤ) : ℚ) := by
  rw [u8val_intCast]
  have h1 : (1 : ℚ) - ((k % 256 : ℤ) : ℚ) = (((1 - k % 256 : ℤ)) : ℚ) := by push_cast; ring
  rw [h1, u8val_intCast]
  congr 1
  omega

theorem map_const_eq_replicate {α β : Type} (l : List α) (c : β) :
    l.map (fun _ => c) = List.replicate l.length c := by
  induction l with
  | nil => rfl
  | cons a l ih => simp [ih, List.replicate_succ]

instance (t : Tensor2) : Decidable t.rectangular :=
  inferInstanceAs (Decidable (∀ row ∈ t.data, row.length = t.size1))

/-! ### Normal forms of the three adapters -/

/-- When the action width matches, the discrete adapter returns this batch. -/
theorem discrete_ok_form (rexp : ℚ → ℚ) (num_actions : ℕ) (b : RawBatch)
    (h : b.action.size1 = num_actions) :
    discrete_dqn_trainer_preprocessor rexp num_actions b = Except.ok
      { training_input :=
          { state := ⟨b.obs.squeeze2⟩
            action := b.action
            next_state := ⟨b.next_obs.squeeze2⟩
            next_action := b.next_action
            possible_actions_mask := b.possible_actions_mask
            possible_next_actions_mask :=
              ⟨DType.float32,
                b.terminal.data.map (fun t => List.replicate num_actions (1 - t))⟩
            reward := b.reward.unsqueeze1
            not_terminal := ⟨DType.float32, b.terminal.data.map (fun t => [1 - t])⟩
            step := none
            time_diff := none }
        extras :=
          { mdp_id := none
            sequence_number := none
            action_probability := some ⟨DType.float32, b.log_prob.data.map rexp⟩
            max_num_actions := none
            metrics := none } } := by
  simp [discrete_dqn_trainer_preprocessor, h, Tensor1.unsqueeze1, Tensor2.toFloat,
    scalarSub_float32, Tensor2.repeatCols, Tensor1.expMap, List.map_map, Function.comp,
    flatten_replicate_singleton]

/-- When the action width differs, the discrete adapter fails with the
assertion message naming both widths. -/
theorem discrete_error_form (rexp : ℚ → ℚ) (num_actions : ℕ) (b : RawBatch)
    (h : b.action.size1 ≠ num_actions) :
    discrete_dqn_trainer_preprocessor rexp num_actions b =
      Except.error ("action size(1) is " ++ toString b.action.size1 ++
        " while num_actions is " ++ toString num_actions) := by
  simp [discrete_dqn_trainer_preprocessor, h]

/-- The parametric adapter's `not_terminal` entries, computed in uint8. -/
theorem parametric_not_terminal_data (num_actions : ℕ) (b : RawBatch) :
    (parametric_dqn_trainer_preprocessor num_actions b).training_input.not_terminal.data =
      b.terminal.data.map (fun t => [u8val (1 - u8val t)]) := by
  show (scalarSub 1 (b.terminal.unsqueeze1.toU8)).data = _
  simp [Tensor1.unsqueeze1, Tensor2.toU8, scalarSub_uint8, List.map_map, Function.comp]

/-- The SAC adapter's `not_terminal` entries, computed in float. -/
theorem sac_not_terminal_data (b : RawBatch) :
    (sac_trainer_preprocessor b).training_input.not_terminal.data =
      b.terminal.data.map (fun t => [1 - t]) := by
  show (scalarSub 1 (b.terminal.unsqueeze1.toFloat)).data = _
  simp [Tensor1.unsqueeze1, Tensor2.toFloat, scalarSub_float32, List.map_map, Function.comp]

/-- A concrete well-formed sample: batch size 2, action width 3,
terminal flags [0, 1]. -/
def sampleBatch : RawBatch where
  obs := ⟨DType.float32, [[[1], [2]], [[3], [4]]]⟩
  action := ⟨DType.int64, [[1, 0, 0], [0, 1, 0]]⟩
  reward := ⟨DType.float32, [1, 2]⟩
  next_obs := ⟨DType.float32, [[[5], [6]], [[7], [8]]]⟩
  next_action := ⟨DType.int64, [[0, 0, 1], [1, 0, 0]]⟩
  next_reward := ⟨DType.float32, [0, 0]⟩
  terminal := ⟨DType.int64, [0, 1]⟩
  idxs := ⟨DType.int64, [7, 8]⟩
  possible_actions_mask := ⟨DType.int64, [[1, 1, 1], [1, 0, 1]]⟩
  log_prob := ⟨DType.float32, [0, -1]⟩

/-- A concrete sample whose terminal flag is 2, outside the boolean range. -/
def wrapBatch : RawBatch where
  obs := ⟨DType.float32, [[[1]]]⟩
  action := ⟨DType.float32, [[1, 0]]⟩
  reward := ⟨DType.float32, [1]⟩
  next_obs := ⟨DType.float32, [[[2]]]⟩
  next_action := ⟨DType.float32, [[0, 1]]⟩
  next_reward := ⟨DType.float32, [0]⟩
  terminal := ⟨DType.int64, [2]⟩
  idxs := ⟨DType.int64, [0]⟩
  possible_actions_mask := ⟨DType.float32, [[1, 1]]⟩
  log_prob := ⟨DType.float32, [0]⟩

/-! ### Claims -/

/-- C1: for every input tuple (with a rectangular, nonempty action array, so
that `size(1)` is its second dimension), the discrete adapter fails — returns
no batch — if and only if the action width differs from the configured
`num_actions`, and on failure the error message states the actual action width
and the configured `num_actions`. -/
theorem discrete_assert_iff_width_mismatch (rexp : ℚ → ℚ) (num_actions : ℕ)
    (b : RawBatch) (_hrect : b.action.rectangular) (_hne : b.action.data ≠ []) :
    ((∃ out, discrete_dqn_trainer_preprocessor rexp num_actions b = Except.ok out) ↔
      b.action.size1 = num_actions) ∧
    (b.action.size1 ≠ num_actions →
      discrete_dqn_trainer_preprocessor rexp num_actions b =
        Except.error ("action size(1) is " ++ toString b.action.size1 ++
          " while num_actions is " ++ toString num_actions)) := by
  constructor
  · constructor
    · rintro ⟨out, hout⟩
      by_contra hw
      rw [discrete_error_form rexp num_actions b hw] at hout
      exact absurd hout (by simp)
    · intro h
      exact ⟨_, discrete_ok_form rexp num_actions b h⟩
  · intro h
    exact discrete_error_form rexp num_actions b h

theorem discrete_assert_iff_width_mismatch_witness :
    discrete_dqn_trainer_preprocessor id 4 sampleBatch =
      Except.error "action size(1) is 3 while num_actions is 4" := by
  have h :=
    (discrete_assert_iff_width_mismatch id 4 sampleBatch (by decide) (by decide)).2
      (by decide)
  rw [h]
  decide

/-- C2: whenever the action width equals `num_actions`, the discrete adapter
succeeds and the returned batch's `not_terminal` has shape [B, 1] and its
`possible_next_actions_mask` has shape [B, num_actions], where B is the batch
size (the leading dimension of the terminal-flag array). -/
theorem discrete_success_shapes (rexp : ℚ → ℚ) (num_actions B : ℕ) (b : RawBatch)
    (hB : b.terminal.data.length = B) (h : b.action.size1 = num_actions) :
    (discrete_dqn_trainer_preprocessor rexp num_actions b).map
        (fun out =>
          (out.training_input.not_terminal.data.length,
            out.training_input.not_terminal.data.map List.length,
            out.training_input.possible_next_actions_mask.data.length,
            out.training_input.possible_next_actions_mask.data.map List.length)) =
      Except.ok (B, List.replicate B 1, B, List.replicate B num_actions) := by
  rw [discrete_ok_form rexp num_actions b h]
  simp [Except.map, Function.comp_def, map_const_eq_replicate, hB]

theorem discrete_success_shapes_witness :
    (discrete_dqn_trainer_preprocessor id 3 sampleBatch).map
        (fun out =>
          (out.training_input.not_terminal.data.length,
            out.training_input.not_terminal.data.map List.length,
            out.training_input.possible_next_actions_mask.data.length,
            out.training_input.possible_next_actions_mask.data.map List.length)) =
      Except.ok (2, [1, 1], 2, [3, 3]) := by
  rw [discrete_success_shapes id 3 2 sampleBatch (by decide) (by decide)]
  simp [List.replicate]

/-- C3: each row i of the discrete adapter's `possible_next_actions_mask` is
the not-terminal value of row i broadcast across all `num_actions` columns —
the mask is a function of the terminal flags alone, whatever the rest of the
input tuple (in particular its possible-actions mask) contains. -/
theorem discrete_next_mask_broadcast (rexp : ℚ → ℚ) (num_actions : ℕ) (b : RawBatch)
    (h : b.action.size1 = num_actions) :
    (discrete_dqn_trainer_preprocessor rexp num_actions b).map
        (fun out => out.training_input.possible_next_actions_mask.data) =
      Except.ok (b.terminal.data.map (fun t => List.replicate num_actions (1 - t))) := by
  rw [discrete_ok_form rexp num_actions b h]
  rfl

theorem discrete_next_mask_broadcast_witness :
    (discrete_dqn_trainer_preprocessor id 3 sampleBatch).map
        (fun out => out.training_input.possible_next_actions_mask.data) =
      Except.ok [[1, 1, 1], [0, 0, 0]] := by
  rw [discrete_next_mask_broadcast id 3 sampleBatch (by decide)]
  norm_num [sampleBatch, List.replicate]

/-- C6: the discrete adapter's `extras.action_probability` is the elementwise
exponential of the tuple's tenth element, the log-probability array. -/
theorem discrete_action_probability_exp (rexp : ℚ → ℚ) (num_actions : ℕ)
    (b : RawBatch) (h : b.action.size1 = num_actions) :
    (discrete_dqn_trainer_preprocessor rexp num_actions b).map
        (fun out => out.extras.action_probability) =
      Except.ok (some ⟨DType.float32, b.log_prob.data.map rexp⟩) := by
  rw [discrete_ok_form rexp num_actions b h]
  rfl

theorem discrete_action_probability_exp_witness :
    (discrete_dqn_trainer_preprocessor (fun q => q * q) 3 sampleBatch).map
        (fun out => out.extras.action_probability) =
      Except.ok (some ⟨DType.float32, [0, 1]⟩) := by
  rw [discrete_action_probability_exp (fun q => q * q) 3 sampleBatch (by decide)]
  norm_num [sampleBatch]

/-- C9: the discrete adapter forwards the tuple's ninth element, the
possible-actions mask, unchanged into the batch's `possible_actions_mask`;
only the next-step mask is derived from the terminal flags. -/
theorem discrete_forwards_actions_mask (rexp : ℚ → ℚ) (num_actions : ℕ)
    (b : RawBatch) (h : b.action.size1 = num_actions) :
    (discrete_dqn_trainer_preprocessor rexp num_actions b).map
        (fun out => out.training_input.possible_actions_mask) =
      Except.ok b.possible_actions_mask := by
  rw [discrete_ok_form rexp num_actions b h]
  rfl

theorem discrete_forwards_actions_mask_witness :
    (discrete_dqn_trainer_preprocessor id 3 sampleBatch).map
        (fun out => out.training_input.possible_actions_mask) =
      Except.ok ⟨DType.int64, [[1, 1, 1], [1, 0, 1]]⟩ := by
  rw [discrete_forwards_actions_mask id 3 sampleBatch (by decide)]
  rfl

/-- C4: for the parametric adapter with batch size B (the leading dimension of
the observation arrays) and action count N, `tiled_next_state` has B·N rows
with the (squeezed) next-observation row i occupying positions i·N … i·N+N−1,
and `possible_next_actions` is B vertically stacked copies of the N×N identity:
its row r is the identity row with the 1 in column r mod N. -/
theorem parametric_tiling_and_identity (num_actions B : ℕ) (b : RawBatch)
    (hobs : b.obs.data.length = B) (hnext : b.next_obs.data.length = B) :
    ((parametric_dqn_trainer_preprocessor num_actions b).training_input.tiled_next_state.float_features.data.length
        = B * num_actions) ∧
    (∀ i k, k < num_actions →
      (parametric_dqn_trainer_preprocessor num_actions b).training_input.tiled_next_state.float_features.data[i * num_actions + k]?
        = b.next_obs.squeeze2.data[i]?) ∧
    ((parametric_dqn_trainer_preprocessor num_actions b).training_input.possible_next_actions
        = some ⟨(eye num_actions).repeatRows B⟩) ∧
    (((eye num_actions).repeatRows B).data.length = B * num_actions) ∧
    (∀ r, r < B * num_actions →
      ((eye num_actions).repeatRows B).data[r]? =
        some ((List.range num_actions).map
          (fun j => if r % num_actions = j then (1 : ℚ) else 0))) := by
  have htiled :
      (parametric_dqn_trainer_preprocessor num_actions b).training_input.tiled_next_state.float_features.data
        = b.next_obs.squeeze2.data.flatMap (fun row => List.replicate num_actions row) := rfl
  have hsqlen : b.next_obs.squeeze2.data.length = B := by
    simpa [Tensor3.squeeze2] using hnext
  refine ⟨?_, ?_, ?_, ?_, ?_⟩
  · rw [htiled, length_flatMap_replicate, hsqlen, Nat.mul_comm]
  · intro i k hk
    rw [htiled, getElem?_flatMap_replicate _ _ _ _ hk]
  · rw [← hobs]
    rfl
  · show ((List.replicate B (eye num_actions).data).flatten).length = _
    rw [length_flatten_replicate, eye_data_length]
  · intro r hr
    have hn : 0 < num_actions := by
      rcases Nat.eq_zero_or_pos num_actions with h0 | h0
      · subst h0
        simp at hr
      · exact h0
    have hi : r / num_actions < B := (Nat.div_lt_iff_lt_mul hn).mpr hr
    have hk : r % num_actions < num_actions := Nat.mod_lt r hn
    have hidx : r = r / num_actions * (eye num_actions).data.length + r % num_actions := by
      rw [eye_data_length, Nat.mul_comm]
      exact (Nat.div_add_mod r num_actions).symm
    have key : ((List.replicate B (eye num_actions).data).flatten)[r]? =
        (eye num_actions).data[r % num_actions]? := by
      conv_lhs => rw [hidx]
      exact getElem?_flatten_replicate B (eye num_actions).data (r / num_actions)
        (r % num_actions) hi (by rw [eye_data_length]; exact hk)
    show ((List.replicate B (eye num_actions).data).flatten)[r]? = _
    rw [key]
    exact eye_row num_actions (r % num_actions) hk

theorem parametric_tiling_and_identity_witness :
    ((parametric_dqn_trainer_preprocessor 2 sampleBatch).training_input.tiled_next_state.float_features.data.length
        = 4) ∧
    ((parametric_dqn_trainer_preprocessor 2 sampleBatch).training_input.tiled_next_state.float_features.data[1]?
        = some [5, 6]) ∧
    ((parametric_dqn_trainer_preprocessor 2 sampleBatch).training_input.possible_next_actions
        = some ⟨(eye 2).repeatRows 2⟩) ∧
    (((eye 2).repeatRows 2).data[2]? = some [1, 0]) := by
  have h := parametric_tiling_and_identity 2 2 sampleBatch (by decide) (by decide)
  refine ⟨by simpa using h.1, ?_, h.2.2.1, ?_⟩
  · have h01 := h.2.1 0 1 (by decide)
    simpa [sampleBatch, Tensor3.squeeze2] using h01
  · have h2 := h.2.2.2.2 2 (by decide)
    rw [h2]
    norm_num [List.range_succ]

/-- C5 counterexample: at an input whose terminal flag is 2, the parametric
adapter's `not_terminal` entry is 255 (uint8 wraparound), not 1 − 2. -/
theorem not_terminal_complement_cex :
    wrapBatch.terminal.data = [2] ∧
    (parametric_dqn_trainer_preprocessor 1 wrapBatch).training_input.not_terminal.data
      = [[255]] ∧
    (255 : ℚ) ≠ 1 - 2 := by
  refine ⟨rfl, ?_, by norm_num⟩
  norm_num [parametric_dqn_trainer_preprocessor, wrapBatch, scalarSub, Tensor2.toU8,
    Tensor1.unsqueeze1, u8val, truncQ, Rat.den_ofNat]

/-- C5 amended: `not_terminal = 1 - terminal` element-wise holds
unconditionally for the discrete and SAC adapters, and for the parametric
adapter whenever every terminal flag is 0 or 1 (the parametric adapter
computes in uint8, so other terminal values wrap modulo 256). -/
theorem not_terminal_complement (rexp : ℚ → ℚ) (num_actions : ℕ) (b : RawBatch) :
    (∀ out, discrete_dqn_trainer_preprocessor rexp num_actions b = Except.ok out →
      out.training_input.not_terminal.data = b.terminal.data.map (fun t => [1 - t])) ∧
    ((sac_trainer_preprocessor b).training_input.not_terminal.data
      = b.terminal.data.map (fun t => [1 - t])) ∧
    ((∀ t ∈ b.terminal.data, t = 0 ∨ t = 1) →
      (parametric_dqn_trainer_preprocessor num_actions b).training_input.not_terminal.data
        = b.terminal.data.map (fun t => [1 - t])) := by
  refine ⟨?_, sac_not_terminal_data b, ?_⟩
  · intro out hout
    by_cases h : b.action.size1 = num_actions
    · rw [discrete_ok_form rexp num_actions b h] at hout
      cases hout
      rfl
    · rw [discrete_error_form rexp num_actions b h] at hout
      exact absurd hout (by simp)
  · intro ht
    rw [parametric_not_terminal_data]
    refine List.map_congr_left ?_
    intro t htmem
    rcases ht t htmem with h0 | h1
    · subst h0
      have h := u8val_one_sub_u8val_intCast 0
      norm_num at h
      norm_num [h]
    · subst h1
      have h := u8val_one_sub_u8val_intCast 1
      norm_num at h
      norm_num [h]

theorem not_terminal_complement_witness :
    ((sac_trainer_preprocessor sampleBatch).training_input.not_terminal.data
      = [[1], [0]]) ∧
    ((parametric_dqn_trainer_preprocessor 3 sampleBatch).training_input.not_terminal.data
      = [[1], [0]]) := by
  have h := not_terminal_complement id 3 sampleBatch
  refine ⟨?_, ?_⟩
  · rw [h.2.1]
    norm_num [sampleBatch]
  · rw [h.2.2 (by decide)]
    norm_num [sampleBatch]

/-- C7 counterexample: the SAC adapter leaves the next-action array's dtype
unchanged — at an input whose next-action array is int64, the output
`next_action` is still int64, not floating point. -/
theorem sac_next_action_uncast_cex :
    sampleBatch.next_action.dtype = DType.int64 ∧
    (sac_trainer_preprocessor sampleBatch).training_input.next_action.float_features.dtype
      = DType.int64 ∧
    DType.int64 ≠ DType.float32 :=
  ⟨rfl, rfl, by decide⟩

/-- C7 amended: the SAC adapter casts the action array to floating point, as
the parametric adapter does for both arrays, but converts the next-action
array with no cast, keeping it exactly as sampled (dtype included). -/
theorem sac_cast_conventions (num_actions : ℕ) (b : RawBatch) :
    ((sac_trainer_preprocessor b).training_input.action.float_features.dtype
      = DType.float32) ∧
    ((sac_trainer_preprocessor b).training_input.next_action.float_features
      = b.next_action) ∧
    ((parametric_dqn_trainer_preprocessor num_actions b).training_input.action.float_features.dtype
      = DType.float32) ∧
    ((parametric_dqn_trainer_preprocessor num_actions b).training_input.next_action.float_features.dtype
      = DType.float32) :=
  ⟨rfl, rfl, rfl, rfl⟩

/-- C8: the SAC adapter's output does not depend on the tuple's sample-index
element — two inputs differing only in `idxs` yield equal batches. -/
theorem sac_independent_of_idxs (b : RawBatch) (idxs1 idxs2 : Tensor1) :
    sac_trainer_preprocessor { b with idxs := idxs1 } =
      sac_trainer_preprocessor { b with idxs := idxs2 } := rfl

/-- C10: the parametric adapter computes `not_terminal` in unsigned 8-bit
arithmetic: an integer terminal flag k yields (1 − k) mod 256, which is 1 for
k = 0, 0 for k = 1, and wraps to 255 for k = 2. -/
theorem parametric_not_terminal_uint8 (num_actions : ℕ) (b : RawBatch)
    (i : ℕ) (k : ℤ) (hi : b.terminal.data[i]? = some ((k : ℤ) : ℚ)) :
    ((parametric_dqn_trainer_preprocessor num_actions b).training_input.not_terminal.data[i]?
      = some [(((1 - k) % 256 : ℤ) : ℚ)]) ∧
    (k = 0 →
      (parametric_dqn_trainer_preprocessor num_actions b).training_input.not_terminal.data[i]?
        = some [1]) ∧
    (k = 1 →
      (parametric_dqn_trainer_preprocessor num_actions b).training_input.not_terminal.data[i]?
        = some [0]) ∧
    (k = 2 →
      (parametric_dqn_trainer_preprocessor num_actions b).training_input.not_terminal.data[i]?
        = some [255]) := by
  have hmain :
      (parametric_dqn_trainer_preprocessor num_actions b).training_input.not_terminal.data[i]?
        = some [(((1 - k) % 256 : ℤ) : ℚ)] := by
    rw [parametric_not_terminal_data, List.getElem?_map, hi]
    simp [u8val_one_sub_u8val_intCast]
  refine ⟨hmain, ?_, ?_, ?_⟩ <;> rintro rfl <;> rw [hmain] <;> norm_num

theorem parametric_not_terminal_uint8_witness :
    (parametric_dqn_trainer_preprocessor 1 wrapBatch).training_input.not_terminal.data[0]?
      = some [255] := by
  have h :=
    parametric_not_terminal_uint8 1 wrapBatch 0 2 (by norm_num [wrapBatch])
  exact h.2.2.2 rfl

end TrainerPrep
